import Mathlib

/-!
Shallow embedding of the voice/text command session manager of the
VOICE-TEXT repository (frontend).

Embedded source:
- src/frontend/src/services/api.ts        (executeAgent)
- src/frontend/src/App.tsx                (chat App: handleSubmit, formatTime)
- src/frontend/src/components/VoiceInput.tsx  (startListening, stopListening,
                                               recognition callbacks)
- src/frontend/src/components/FileUpload.tsx  (handleFile)
- src/unnamed/part_001 (AudioRecorder: handleAudioProcessing, recorded blob)

Conventions of the embedding:
- JavaScript exceptions are modelled by `Except String`: `.error e` is a
  thrown `Error` whose `.message` is `e`; a total Lean function returning a
  plain value models code that cannot throw.
- `Date.now()` and wall-clock reads are modelled by a `Nat` time value (in
  milliseconds) passed to each event; `formatTime` renders only the minute,
  mirroring `toLocaleTimeString` with hour/minute granularity.
- React `setState` calls inside one synchronous handler section are modelled
  as a single state-to-state function, which matches React's batched,
  single-threaded update semantics.
-/

/-- JavaScript `a || b` on strings: the empty string is falsy. -/
def jsOr (a b : String) : String :=
  if a = "" then b else a

/-- JavaScript `s.trim()`: strips leading and trailing whitespace. Defined
structurally over the character list so that concrete instances compute. -/
def jsTrim (s : String) : String :=
  ⟨((s.data.dropWhile Char.isWhitespace).reverse.dropWhile
      Char.isWhitespace).reverse⟩

/-! ## Data model (src/frontend/src/services/api.ts) -/

/-- The `parsed` field of `AgentResponse`: optional email fields. -/
structure Parsed where
  to? : Option String
  subject? : Option String
  body? : Option String
deriving DecidableEq, Repr

/-- `AgentResponse` from api.ts: the backend's reply to `/api/agent/execute`.
`details : Record<string, string>` is modelled as an association list. -/
structure AgentResponse where
  success : Bool
  action : String
  intent : String
  message : String
  details : List (String × String)
  parsed : Parsed
deriving DecidableEq, Repr

/-- The possible outcomes of the underlying axios `post` call inside
`executeAgent`: a successful response carrying parsed data, an axios error
(whose optional `response.data.detail` and `message` feed the normalized
message), or a non-axios throw. -/
inductive HttpOutcome where
  | success (data : AgentResponse)
  | axiosError (detail? : Option String) (message : String)
  | otherError
deriving DecidableEq, Repr

/-- `executeAgent` from api.ts lines 39-55: returns `response.data` on
success; on any failure it throws a `new Error` whose message is
`error.response?.data?.detail || error.message || 'Failed to execute agent
command'` for axios errors, and the fixed fallback otherwise. A throw is
modelled as `Except.error`. -/
def executeAgent : HttpOutcome → Except String AgentResponse
  | .success d => .ok d
  | .axiosError detail? msg =>
      .error (jsOr (detail?.getD "") (jsOr msg "Failed to execute agent command"))
  | .otherError => .error "Failed to execute agent command"

/-! ## Orchestrator (chat App in src/frontend/src/App.tsx) -/

/-- The `type` field of a `Message`: the TS union `'user' | 'agent'`. -/
inductive MsgOrigin where
  | user
  | agent
deriving DecidableEq, Repr

/-- The minute index of a millisecond clock value: `toLocaleTimeString`
with hour/minute granularity renders exactly this much of the clock. -/
def minuteOf (t : Nat) : Nat :=
  t / 60000

/-- `formatTime` from App.tsx lines 185-190: renders the current wall time
at hour/minute granularity via `toLocaleTimeString`. The embedding renders
the absolute minute index of the millisecond clock `t`; what matters for
the claims is that two reads within the same minute yield the same string. -/
def formatTime (t : Nat) : String :=
  toString (minuteOf t)

/-- A `Message` entry of the transcript log (App.tsx lines 148-154). -/
structure Message where
  id : String
  type : MsgOrigin
  text : String
  agentData? : Option AgentResponse
  timestamp : String
deriving DecidableEq, Repr

/-- The user message appended by `handleSubmit` at clock `t`:
`{id: user-${Date.now()}, type: 'user', text, timestamp: formatTime()}`. -/
def mkUserMessage (text : String) (t : Nat) : Message :=
  { id := "user-" ++ toString t
    type := .user
    text := text
    agentData? := none
    timestamp := formatTime t }

/-- The agent message appended when `executeAgent` resolves with `result`. -/
def mkAgentMessage (result : AgentResponse) (t : Nat) : Message :=
  { id := "agent-" ++ toString t
    type := .agent
    text := result.message
    agentData? := some result
    timestamp := formatTime t }

/-- The agent message appended by the `catch` branch of `handleSubmit` when
`executeAgent` rejects with an `Error` whose message is `e`. The
`instanceof Error` test is always true here, because `executeAgent` only
ever throws `new Error(...)`; the message carries no `agentData`. -/
def mkErrorMessage (e : String) (t : Nat) : Message :=
  { id := "agent-" ++ toString t
    type := .agent
    text := "❌ Error: " ++ e
    agentData? := none
    timestamp := formatTime t }

/-- The chat App state touched by `handleSubmit`: the `messages` log, the
`isProcessing` in-flight flag and the `showWelcome` flag. -/
structure AppState where
  messages : List Message
  isProcessing : Bool
  showWelcome : Bool
deriving DecidableEq, Repr

/-- Initial chat App state: empty log, not processing, welcome shown. -/
def initApp : AppState :=
  { messages := [], isProcessing := false, showWelcome := true }

/-- The synchronous part of `handleSubmit` (App.tsx lines 192-206) run at
clock `t`, up to the `await executeAgent(text)` suspension point: the guard
`if (!text.trim() || isProcessing) return` makes the call a no-op; otherwise
the welcome flag is cleared, the user message is appended and `isProcessing`
is set. The returned `Bool` records whether the submission proceeded, i.e.
whether `executeAgent` is invoked. -/
def handleSubmitStart (s : AppState) (text : String) (t : Nat) : AppState × Bool :=
  if jsTrim text = "" ∨ s.isProcessing then
    (s, false)
  else
    ({ messages := s.messages ++ [mkUserMessage text t]
       isProcessing := true
       showWelcome := false }, true)

/-- The continuation of `handleSubmit` (App.tsx lines 208-233) run at clock
`t` once the `executeAgent` promise settles: `try` appends the agent
message, `catch` appends the error message, `finally` clears
`isProcessing`. It is a total function: no exception escapes `handleSubmit`,
so its returned promise never rejects. -/
def handleSubmitFinish (s : AppState) (result : Except String AgentResponse)
    (t : Nat) : AppState :=
  match result with
  | .ok r =>
      { s with messages := s.messages ++ [mkAgentMessage r t], isProcessing := false }
  | .error e =>
      { s with messages := s.messages ++ [mkErrorMessage e t], isProcessing := false }

/-- A sequence of further `handleSubmit` attempts (text and clock of each),
fired while the first submission is still in flight. -/
def submitAttempts (s : AppState) (attempts : List (String × Nat)) : AppState :=
  attempts.foldl (fun st a => (handleSubmitStart st a.1 a.2).1) s

/-- Orchestrator events: a `handleSubmit` call reaching its guard, and the
settling of the in-flight `executeAgent` promise. -/
inductive AppEvent where
  | submitStart (text : String) (t : Nat)
  | submitFinish (result : Except String AgentResponse) (t : Nat)
deriving Repr

/-- The wall-clock time at which an event is processed. -/
def AppEvent.time : AppEvent → Nat
  | .submitStart _ t => t
  | .submitFinish _ t => t

/-- One orchestrator step. -/
def appStep (s : AppState) : AppEvent → AppState
  | .submitStart text t => (handleSubmitStart s text t).1
  | .submitFinish r t => handleSubmitFinish s r t

/-- A run of the orchestrator over a list of events. -/
def runEvents (s : AppState) (es : List AppEvent) : AppState :=
  es.foldl appStep s

/-! ## Capture session (src/frontend/src/components/VoiceInput.tsx) -/

/-- The VoiceInput component state: the `isListening` flag, the accumulated
live `transcript`, the typed `textInput`, and `recognitionRef.current`
(identified by an allocation id; `none` models a null ref). `nextRecId` is
the fresh-id source standing for `new SpeechRecognition()` allocation. -/
structure VoiceState where
  isListening : Bool
  transcript : String
  textInput : String
  recognition? : Option Nat
  nextRecId : Nat
deriving DecidableEq, Repr

/-- What a `startListening` call did: either the platform has no
SpeechRecognition constructor (an alert is shown and nothing else happens),
or a fresh recognizer was allocated, installed in `recognitionRef.current`
and its `start()` was called. There is no busy/error variant: the source
performs no check for an already-active capture. -/
inductive StartResult where
  | unsupported
  | started (recId : Nat)
deriving DecidableEq, Repr

/-- `startListening` from VoiceInput.tsx lines 34-88: when the platform
lacks SpeechRecognition, alert and return with the state untouched;
otherwise allocate a new recognizer, set its handlers, overwrite
`recognitionRef.current` with it and call `start()`. `setIsListening(true)`
and `setTranscript('')` happen later, in the `onstart` callback, not here. -/
def startListening (supported : Bool) (s : VoiceState) : VoiceState × StartResult :=
  if supported then
    ({ s with recognition? := some s.nextRecId, nextRecId := s.nextRecId + 1 },
     .started s.nextRecId)
  else
    (s, .unsupported)

/-- The recognizer `onstart` callback (VoiceInput.tsx lines 51-55). -/
def recOnStart (s : VoiceState) : VoiceState :=
  { s with isListening := true, transcript := "" }

/-- The recognizer `onresult` callback (VoiceInput.tsx lines 57-73): the
event's results are split into a concatenated final part and interim part;
the displayed hypothesis is `finalTranscript || interimTranscript`, stored
in `transcript` and forwarded to `onTranscript` (the returned string). -/
def recOnResult (s : VoiceState) (finalT interimT : String) : VoiceState × String :=
  let fullText := jsOr finalT interimT
  ({ s with transcript := fullText }, fullText)

/-- The recognizer `onend` / `onerror` callbacks (lines 75-84). -/
def recOnEnd (s : VoiceState) : VoiceState :=
  { s with isListening := false }

/-- `stopListening` from VoiceInput.tsx lines 90-102: if
`recognitionRef.current` is non-null, call its `stop()`, clear the
listening flag, and, when the trimmed transcript is non-empty, hand it to
the Orchestrator via `onSubmit` and reset the transcript. The returned
`Option String` is the utterance passed to `onSubmit` (`none` = `onSubmit`
not called). -/
def stopListening (s : VoiceState) : VoiceState × Option String :=
  match s.recognition? with
  | none => (s, none)
  | some _ =>
      if jsTrim s.transcript = "" then
        ({ s with isListening := false }, none)
      else
        ({ s with isListening := false, transcript := "" }, some (jsTrim s.transcript))

/-! ## File upload and recorder (FileUpload.tsx, src/unnamed/part_001) -/

/-- The fields of a browser `File`/`Blob` that the validation reads. -/
structure JsFile where
  type : String
  size : Nat
deriving DecidableEq, Repr

/-- Whether an audio payload was submitted to the backend: `rejected e`
means a local validation error `e` was surfaced via `onError` and
`processAudio` was never invoked; `submitted f` means a FormData carrying
`f` was handed to `processAudio` (the network call starts). -/
inductive UploadResult where
  | rejected (errMsg : String)
  | submitted (f : JsFile)
deriving DecidableEq, Repr

/-- The 25 MB limit from FileUpload.tsx line 28: `25 * 1024 * 1024`. -/
def maxAudioSize : Nat := 25 * 1024 * 1024

/-- `handleFile` from FileUpload.tsx lines 20-51, up to the `processAudio`
call: reject non-`audio/*` MIME types, then reject files larger than 25 MB,
otherwise build the FormData and invoke `processAudio`. -/
def handleFile (f : JsFile) : UploadResult :=
  if ¬ f.type.startsWith "audio/" then
    .rejected "Please select an audio file (MP3, WAV, M4A, etc.)"
  else if f.size > maxAudioSize then
    .rejected "File size must be less than 25MB"
  else
    .submitted f

/-- The blob assembled by the recorder's `onstop` handler
(src/unnamed/part_001 lines 54-57): `new Blob(audioChunksRef.current,
{type: 'audio/webm'})`, whose size is the total of the accumulated chunk
sizes. -/
def recordedBlob (chunkSizes : List Nat) : JsFile :=
  { type := "audio/webm", size := chunkSizes.sum }

/-- `handleAudioProcessing` from src/unnamed/part_001 lines 95-113: appends
the blob to a FormData and calls `processAudio` unconditionally — no MIME
or size validation is performed on the recorded payload. -/
def handleAudioProcessing (blob : JsFile) : UploadResult :=
  .submitted blob

/-! ## Shared lemmas -/

/-- A `handleSubmit` call on a busy orchestrator reduces to the guard's
early return. -/
theorem handleSubmitStart_of_busy (s : AppState) (text : String) (t : Nat)
    (h : s.isProcessing = true) :
    handleSubmitStart s text t = (s, false) := by
  simp [handleSubmitStart, h]

/-- Repeated `handleSubmit` attempts on a busy orchestrator leave the state
unchanged. -/
theorem submitAttempts_of_busy (attempts : List (String × Nat)) :
    ∀ s : AppState, s.isProcessing = true → submitAttempts s attempts = s := by
  induction attempts with
  | nil => intro s _; rfl
  | cons a as ih =>
      intro s h
      have hstep : handleSubmitStart s a.1 a.2 = (s, false) :=
        handleSubmitStart_of_busy s a.1 a.2 h
      show submitAttempts (handleSubmitStart s a.1 a.2).1 as = s
      rw [hstep]
      exact ih s h

/-- A `handleSubmit` call passing its guard appends the user message, sets
`isProcessing` and clears the welcome flag. -/
theorem handleSubmitStart_of_ready (s : AppState) (text : String) (t : Nat)
    (hready : s.isProcessing = false) (htext : jsTrim text ≠ "") :
    handleSubmitStart s text t =
      ({ messages := s.messages ++ [mkUserMessage text t]
         isProcessing := true
         showWelcome := false }, true) := by
  simp [handleSubmitStart, hready, htext]

/-- `jsOr` never produces the empty string when its fallback is non-empty. -/
theorem jsOr_ne_empty (a b : String) (hb : b ≠ "") : jsOr a b ≠ "" := by
  unfold jsOr
  split
  · exact hb
  · assumption

/-- Each orchestrator step only appends to the log, and every appended
message is stamped with the step's wall time. -/
theorem appStep_messages (s : AppState) (e : AppEvent) :
    ∃ new : List Message, (appStep s e).messages = s.messages ++ new ∧
      ∀ m ∈ new, m.timestamp = formatTime e.time := by
  cases e with
  | submitStart text t =>
      show ∃ new, ((handleSubmitStart s text t).1).messages = _ ∧ _
      unfold handleSubmitStart
      split
      · exact ⟨[], by simp, by simp⟩
      · exact ⟨[mkUserMessage text t], rfl, by simp [mkUserMessage, AppEvent.time]⟩
  | submitFinish r t =>
      cases r with
      | ok a =>
          exact ⟨[mkAgentMessage a t], rfl, by simp [mkAgentMessage, AppEvent.time]⟩
      | error err =>
          exact ⟨[mkErrorMessage err t], rfl, by simp [mkErrorMessage, AppEvent.time]⟩

/-- Over any run of the orchestrator, the log is append-only: the starting
log is preserved unchanged as an initial segment. -/
theorem runEvents_append_only (es : List AppEvent) :
    ∀ s : AppState, ∃ new : List Message,
      (runEvents s es).messages = s.messages ++ new := by
  induction es with
  | nil => intro s; exact ⟨[], by simp [runEvents]⟩
  | cons e es ih =>
      intro s
      obtain ⟨n₁, h₁, _⟩ := appStep_messages s e
      obtain ⟨n₂, h₂⟩ := ih (appStep s e)
      refine ⟨n₁ ++ n₂, ?_⟩
      show (runEvents (appStep s e) es).messages = _
      rw [h₂, h₁, List.append_assoc]

/-! ## Claim theorems: orchestrator -/

/-- C1: for every completed submission round trip — `handleSubmit` called
in the Ready state (`isProcessing = false`) with non-blank text, the
backend call either resolving or rejecting — the message log grows by
exactly two entries: first a user message carrying the submitted text, then
an agent message; any number of further submit attempts fired while the
submission is in flight change nothing. -/
theorem handleSubmit_roundTrip_appends_exactly_two
    (s : AppState) (text : String) (t₀ t₁ : Nat)
    (attempts : List (String × Nat)) (result : Except String AgentResponse)
    (hready : s.isProcessing = false) (htext : jsTrim text ≠ "") :
    (handleSubmitFinish (submitAttempts (handleSubmitStart s text t₀).1 attempts)
        result t₁).messages =
      s.messages ++ [mkUserMessage text t₀,
        match result with
        | .ok r => mkAgentMessage r t₁
        | .error e => mkErrorMessage e t₁] ∧
    (handleSubmitFinish (submitAttempts (handleSubmitStart s text t₀).1 attempts)
        result t₁).messages.length = s.messages.length + 2 ∧
    (mkUserMessage text t₀).type = MsgOrigin.user ∧
    (mkUserMessage text t₀).text = text := by
  rw [handleSubmitStart_of_ready s text t₀ hready htext]
  rw [submitAttempts_of_busy attempts _ rfl]
  refine ⟨?_, ?_, rfl, rfl⟩
  · cases result <;> simp [handleSubmitFinish]
  · cases result <;> simp [handleSubmitFinish]

/-- C1 witness: a concrete round trip from the initial state with one extra
submit attempt fired while busy. -/
theorem handleSubmit_roundTrip_appends_exactly_two_witness :
    (handleSubmitFinish
        (submitAttempts (handleSubmitStart initApp "hello" 1000).1 [("again", 1500)])
        (.error "Network Error") 2000).messages =
      initApp.messages ++ [mkUserMessage "hello" 1000, mkErrorMessage "Network Error" 2000] ∧
    (handleSubmitFinish
        (submitAttempts (handleSubmitStart initApp "hello" 1000).1 [("again", 1500)])
        (.error "Network Error") 2000).messages.length = initApp.messages.length + 2 ∧
    (mkUserMessage "hello" 1000).type = MsgOrigin.user ∧
    (mkUserMessage "hello" 1000).text = "hello" :=
  handleSubmit_roundTrip_appends_exactly_two initApp "hello" 1000 2000
    [("again", 1500)] (.error "Network Error") rfl (by decide)

/-- C2: every `handleSubmit` call made while a submission is in flight
(`isProcessing = true`) is a no-op: the state — log, flags — is returned
unchanged and the pipeline (`executeAgent`) is not invoked (the `false`
component), regardless of any UI affordance state. -/
theorem handleSubmit_busy_is_noop (s : AppState) (text : String) (t : Nat)
    (h : s.isProcessing = true) :
    handleSubmitStart s text t = (s, false) := by
  simp [handleSubmitStart, h]

/-- C2 witness: a concrete busy state with non-blank text. -/
theorem handleSubmit_busy_is_noop_witness :
    handleSubmitStart
        { messages := [], isProcessing := true, showWelcome := true }
        "send the email" 7 =
      ({ messages := [], isProcessing := true, showWelcome := true }, false) :=
  handleSubmit_busy_is_noop
    { messages := [], isProcessing := true, showWelcome := true }
    "send the email" 7 rfl

/-- C4: when the backend round trip fails (`executeAgent` rejects), the
Orchestrator appends one agent message carrying the human-readable error
text, the presented outcome is the failure (no success `agentData` is
attached), `isProcessing` is cleared, and — `handleSubmitFinish` being a
total function — no exception propagates past the `handleSubmit` boundary. -/
theorem handleSubmit_failure_appends_error_message
    (s : AppState) (o : HttpOutcome) (e : String) (t : Nat)
    (hfail : executeAgent o = .error e) :
    handleSubmitFinish s (executeAgent o) t =
      { s with messages := s.messages ++ [mkErrorMessage e t], isProcessing := false } ∧
    (mkErrorMessage e t).type = MsgOrigin.agent ∧
    (mkErrorMessage e t).text = "❌ Error: " ++ e ∧
    (mkErrorMessage e t).agentData? = none := by
  rw [hfail]
  exact ⟨rfl, rfl, rfl, rfl⟩

/-- C4 witness: a concrete network failure handled at the boundary. -/
theorem handleSubmit_failure_appends_error_message_witness :
    handleSubmitFinish initApp (executeAgent .otherError) 9 =
      { initApp with
          messages := initApp.messages ++
            [mkErrorMessage "Failed to execute agent command" 9]
          isProcessing := false } ∧
    (mkErrorMessage "Failed to execute agent command" 9).type = MsgOrigin.agent ∧
    (mkErrorMessage "Failed to execute agent command" 9).text =
      "❌ Error: " ++ "Failed to execute agent command" ∧
    (mkErrorMessage "Failed to execute agent command" 9).agentData? = none :=
  handleSubmit_failure_appends_error_message initApp .otherError
    "Failed to execute agent command" 9 rfl

/-- C9: a `handleSubmit` call whose text is empty or whitespace-only
(`jsTrim text = ""`) is a no-op: the log, the `isProcessing` flag and the
welcome flag are unchanged and no backend request is started. -/
theorem handleSubmit_blank_is_noop (s : AppState) (text : String) (t : Nat)
    (h : jsTrim text = "") :
    handleSubmitStart s text t = (s, false) := by
  simp [handleSubmitStart, h]

/-- C9 witness: whitespace-only input on the initial state. -/
theorem handleSubmit_blank_is_noop_witness :
    handleSubmitStart initApp "   " 3 = (initApp, false) :=
  handleSubmit_blank_is_noop initApp "   " 3 (by decide)

/-- C10: every guard-passing `handleSubmit` invocation ends with
`isProcessing = false` when the call completes, whether the backend call
resolved or rejected: the `finally` branch always releases the Busy
state. -/
theorem handleSubmit_always_releases_busy
    (s : AppState) (text : String) (t₀ t₁ : Nat)
    (result : Except String AgentResponse)
    (_hready : s.isProcessing = false) (_htext : jsTrim text ≠ "") :
    (handleSubmitFinish (handleSubmitStart s text t₀).1 result t₁).isProcessing
      = false := by
  cases result <;> simp [handleSubmitFinish]

/-- C10 witness: a concrete rejected round trip releases Busy. -/
theorem handleSubmit_always_releases_busy_witness :
    (handleSubmitFinish (handleSubmitStart initApp "hi" 0).1
        (.error "boom") 1).isProcessing = false :=
  handleSubmit_always_releases_busy initApp "hi" 0 1 (.error "boom") rfl (by decide)

/-! ## Claim theorems: submission pipeline (C3) -/

/-- C3 counterexample: the claim says a network failure is returned as an
`ok:false` outcome and that `executeAgent` never throws past its boundary;
in the source `executeAgent` rethrows every failure as a normalized
`Error`, so for a concrete network error the call throws
(`Except.error`) and resolves to no `AgentResponse` at all. -/
theorem executeAgent_throws_on_network_error :
    executeAgent (.axiosError none "Network Error") = .error "Network Error" ∧
    ¬ ∃ r : AgentResponse,
        executeAgent (.axiosError none "Network Error") = .ok r := by
  constructor
  · rfl
  · rintro ⟨r, hr⟩
    simp [executeAgent, jsOr] at hr

/-- C3 amended: `executeAgent` normalizes every failure shape (HTTP error
detail, network error message, non-axios throw) into a single thrown
`Error` carrying a non-empty human-readable message — it never resolves for
a failing round trip; converting that throw into a user-visible `ok:false`
style message is done by the Orchestrator's `catch`, not here. -/
theorem executeAgent_normalizes_failures_into_thrown_error
    (o : HttpOutcome) (hfail : ∀ d : AgentResponse, o ≠ .success d) :
    ∃ e : String, executeAgent o = .error e ∧ e ≠ "" := by
  cases o with
  | success d => exact absurd rfl (hfail d)
  | axiosError detail? msg =>
      exact ⟨_, rfl, jsOr_ne_empty _ _ (jsOr_ne_empty _ _ (by decide))⟩
  | otherError => exact ⟨_, rfl, by decide⟩

/-- C3 amended witness: a concrete HTTP failure carrying a server detail. -/
theorem executeAgent_normalizes_failures_into_thrown_error_witness :
    ∃ e : String,
      executeAgent (.axiosError (some "agent backend unavailable") "Request failed") =
        .error e ∧ e ≠ "" :=
  executeAgent_normalizes_failures_into_thrown_error
    (.axiosError (some "agent backend unavailable") "Request failed")
    (fun _ h => HttpOutcome.noConfusion h)

/-! ## Claim theorems: capture session (C5, C6) -/

/-- A concrete VoiceInput state with an active listening capture. -/
def listeningState : VoiceState :=
  { isListening := true
    transcript := "hello world"
    textInput := ""
    recognition? := some 0
    nextRecId := 1 }

/-- C5 counterexample: the claim says starting a capture while one is
active fails with `CaptureBusy` and leaves the state unchanged; in the
source `startListening` performs no busy check — called while listening it
allocates a fresh recognizer, overwrites `recognitionRef.current` with it
and calls `start()`, so the call succeeds and the state changes. -/
theorem startListening_while_listening_starts_anyway :
    (startListening true listeningState).2 = .started 1 ∧
    (startListening true listeningState).1.recognition? = some 1 ∧
    (startListening true listeningState).1 ≠ listeningState := by
  refine ⟨rfl, rfl, ?_⟩
  intro h
  have := congrArg VoiceState.nextRecId h
  simp [startListening, listeningState] at this

/-- C5 amended: the code raises no `CaptureBusy` error anywhere —
concurrent-start prevention is left to the UI (the mic button toggles
between stop and start and is disabled while processing). When the
platform supports speech recognition, `startListening` called while a
capture is active succeeds unconditionally, replacing the active recognizer
with a freshly allocated one instead of failing or leaving state
unchanged. -/
theorem startListening_replaces_active_recognizer
    (s : VoiceState) (_hactive : s.isListening = true) :
    (startListening true s).2 = .started s.nextRecId ∧
    (startListening true s).1.recognition? = some s.nextRecId ∧
    (startListening true s).1.nextRecId = s.nextRecId + 1 ∧
    (startListening true s).1.isListening = s.isListening :=
  ⟨rfl, rfl, rfl, rfl⟩

/-- C5 amended witness: the concrete listening state. -/
theorem startListening_replaces_active_recognizer_witness :
    (startListening true listeningState).2 = .started 1 ∧
    (startListening true listeningState).1.recognition? = some 1 ∧
    (startListening true listeningState).1.nextRecId = 2 ∧
    (startListening true listeningState).1.isListening = listeningState.isListening :=
  startListening_replaces_active_recognizer listeningState rfl

/-- C6: for every `stopListening` call while listening (the recognizer ref
is non-null), the trimmed accumulated transcript is finalized as exactly
one utterance handed to `onSubmit` when it is non-empty, and no utterance
is produced when it is empty; the transcript holds the last partial
hypothesis when no final result arrived (`onresult` with an empty final
part stores the interim hypothesis), so that is what gets finalized. -/
theorem stopListening_finalizes_trimmed_transcript
    (s s' : VoiceState) (i : Nat) (interim : String)
    (hrec : s.recognition? = some i) :
    ((stopListening s).2 =
      if jsTrim s.transcript = "" then none else some (jsTrim s.transcript)) ∧
    (stopListening s).1.isListening = false ∧
    (recOnResult s' "" interim).1.transcript = interim := by
  have hstop : stopListening s =
      if jsTrim s.transcript = "" then ({ s with isListening := false }, none)
      else ({ s with isListening := false, transcript := "" },
            some (jsTrim s.transcript)) := by
    unfold stopListening
    rw [hrec]
  refine ⟨?_, ?_, ?_⟩
  · rw [hstop]
    split <;> rfl
  · rw [hstop]
    split <;> rfl
  · simp [recOnResult, jsOr]

/-- C6 witness: stopping on the concrete listening state finalizes the
trimmed transcript; stopping with a whitespace-only transcript would give
`none` by the same `if`. -/
theorem stopListening_finalizes_trimmed_transcript_witness :
    ((stopListening listeningState).2 =
      if jsTrim listeningState.transcript = "" then none
      else some (jsTrim listeningState.transcript)) ∧
    (stopListening listeningState).1.isListening = false ∧
    (recOnResult listeningState "" "send it").1.transcript = "send it" :=
  stopListening_finalizes_trimmed_transcript listeningState listeningState 0
    "send it" rfl

/-! ## Claim theorems: audio payload validation (C7) -/

/-- C7 counterexample: the claim says an oversized audio payload is never
sent; the recorder's `handleAudioProcessing` performs no size (or MIME)
validation, so a 26 MB recorded blob is handed straight to `processAudio`
and the network call starts. -/
theorem recorder_sends_oversized_blob :
    handleAudioProcessing (recordedBlob [27262976]) =
      .submitted (recordedBlob [27262976]) ∧
    (recordedBlob [27262976]).size > maxAudioSize := by
  exact ⟨rfl, by decide⟩

/-- C7 amended: for the file-upload path, `handleFile` enforces the
constraints locally before any network call — a file whose MIME type does
not start with `audio/`, or whose size exceeds 25 MB, is rejected with a
user-visible error message and `processAudio` is never invoked for it; the
microphone-recording path, by contrast, submits its recorded `audio/webm`
blob without any size validation. -/
theorem handleFile_rejects_invalid_before_network
    (f : JsFile)
    (hbad : ¬ f.type.startsWith "audio/" ∨ f.size > maxAudioSize) :
    ∃ e : String, handleFile f = .rejected e := by
  unfold handleFile
  split
  · exact ⟨_, rfl⟩
  · next hty =>
      split
      · exact ⟨_, rfl⟩
      · next hsz =>
          rcases hbad with h | h
          · exact absurd h hty
          · exact absurd h hsz

/-- C7 amended witness: a 26 MB audio upload is rejected locally. -/
theorem handleFile_rejects_invalid_before_network_witness :
    ∃ e : String,
      handleFile { type := "audio/mpeg", size := 27262976 } = .rejected e :=
  handleFile_rejects_invalid_before_network
    { type := "audio/mpeg", size := 27262976 } (Or.inr (by decide))

/-! ## Claim theorems: transcript log (C8) -/

/-- A concrete backend reply used in the C8 run. -/
def sampleResponse : AgentResponse :=
  { success := true
    action := "chat_response"
    intent := "conversation"
    message := "Hello!"
    details := []
    parsed := { to? := none, subject? := none, body? := none } }

/-- A concrete completed round trip whose two appends land in the same
wall-clock minute. -/
def sameMinuteRun : AppState :=
  runEvents initApp
    [.submitStart "hi" 1000, .submitFinish (.ok sampleResponse) 2000]

/-- C8 counterexample: the claim says successive log entries have strictly
increasing timestamps; `formatTime` renders the wall time at minute
granularity, so the user and agent messages of a round trip completing
within one minute carry the same timestamp — equal, not strictly
increasing. -/
theorem log_timestamps_can_repeat :
    sameMinuteRun.messages.length = 2 ∧
    sameMinuteRun.messages.map Message.timestamp =
      [formatTime 1000, formatTime 2000] ∧
    formatTime 1000 = formatTime 2000 := by
  refine ⟨rfl, ?_, rfl⟩
  rfl

/-- C8 amended: the log is append-only — every run preserves the existing
entries unchanged as an initial segment and never mutates or removes an
entry (the chat log offers no removal at all) — and each appended entry is
stamped with the minute-granularity wall time of its step, which is
non-decreasing for events processed in time order but not strictly
increasing. -/
theorem transcriptLog_append_only_minute_stamped
    (s : AppState) (es : List AppEvent) (e : AppEvent) (t₁ t₂ : Nat)
    (ht : t₁ ≤ t₂) :
    (∃ new : List Message, (runEvents s es).messages = s.messages ++ new) ∧
    (∃ new : List Message, (appStep s e).messages = s.messages ++ new ∧
      ∀ m ∈ new, m.timestamp = formatTime e.time) ∧
    minuteOf t₁ ≤ minuteOf t₂ :=
  ⟨runEvents_append_only es s, appStep_messages s e,
    Nat.div_le_div_right ht⟩

/-- C8 amended witness: the concrete same-minute run only appends, its
appended entries are stamped with their step times, and the minute index is
monotone between the two step times. -/
theorem transcriptLog_append_only_minute_stamped_witness :
    (∃ new : List Message,
      (runEvents initApp
        [.submitStart "hi" 1000,
         .submitFinish (.ok sampleResponse) 2000]).messages =
        initApp.messages ++ new) ∧
    (∃ new : List Message,
      (appStep initApp (.submitStart "hi" 1000)).messages =
        initApp.messages ++ new ∧
      ∀ m ∈ new, m.timestamp = formatTime (AppEvent.time (.submitStart "hi" 1000))) ∧
    minuteOf 1000 ≤ minuteOf 2000 :=
  transcriptLog_append_only_minute_stamped initApp
    [.submitStart "hi" 1000, .submitFinish (.ok sampleResponse) 2000]
    (.submitStart "hi" 1000) 1000 2000 (by decide)
